import Mathlib

/-!
Verification of the EV charging-station management application.

The definitions below are a shallow embedding of the repository code:
JavaScript numbers are modelled as `JSNumber` (a rational or NaN, since the
form fields bound with `v-model.number` can be NaN), `localStorage` as an
association list, the shared default Authorization header and the Pinia auth
store refs as fields of an explicit `AuthState` record, and asynchronous
HTTP outcomes as an inductive `ServerResponse`. Each theorem names the claim
it settles.
-/

namespace EVStation

/-- A JavaScript number: either NaN or a (rational) numeric value. The form
inputs bound with `v-model.number` yield NaN for non-numeric text. -/
inductive JSNumber where
  | nan : JSNumber
  | num : ℚ → JSNumber
deriving DecidableEq

/-- `isNaN(x)` from JavaScript. -/
def JSNumber.isNaN : JSNumber → Bool
  | .nan => true
  | .num _ => false

/-- JavaScript `x < c` (false when x is NaN). -/
def JSNumber.ltc : JSNumber → ℚ → Bool
  | .nan, _ => false
  | .num q, c => decide (q < c)

/-- JavaScript `x > c` (false when x is NaN). -/
def JSNumber.gtc : JSNumber → ℚ → Bool
  | .nan, _ => false
  | .num q, c => decide (c < q)

/-- JavaScript `x <= c` (false when x is NaN). -/
def JSNumber.lec : JSNumber → ℚ → Bool
  | .nan, _ => false
  | .num q, c => decide (q ≤ c)

/-- JavaScript `String.prototype.trim()`: strips leading and trailing
whitespace. -/
def jsTrim (s : String) : String :=
  String.mk (((s.data.dropWhile Char.isWhitespace).reverse.dropWhile
    Char.isWhitespace).reverse)

/-- The `location` sub-object of a station form / station record
(StationFormPage.vue, stores/stations). -/
structure StationLocation where
  latitude : JSNumber
  longitude : JSNumber
  address : Option String
deriving DecidableEq

/-- `StationInput` as bound to the form in StationFormPage.vue. -/
structure StationInput where
  name : String
  location : StationLocation
  status : String
  powerOutput : JSNumber
  connectorType : String
deriving DecidableEq

/-- The `formErrors` ref of StationFormPage.vue: one message per field plus a
general form message; the empty string means "no error recorded". -/
structure FormErrors where
  name : String
  latitude : String
  longitude : String
  powerOutput : String
  connectorType : String
  form : String
deriving DecidableEq

/-- The all-empty `formErrors` value that `validateForm` resets to. -/
def FormErrors.empty : FormErrors :=
  { name := "", latitude := "", longitude := "", powerOutput := "",
    connectorType := "", form := "" }

/-- The name check of `validateForm`: `if (!stationData.value.name.trim())`
records "Station name is required". The empty string means no message. -/
def nameCheck (s : String) : String :=
  if jsTrim s = "" then "Station name is required" else ""

/-- The latitude check of `validateForm`: `latitude === 0 || isNaN(latitude)`
records the "required" message, otherwise `latitude < -90 || latitude > 90`
records the range message. -/
def latitudeCheck (x : JSNumber) : String :=
  if x = JSNumber.num 0 || x.isNaN then "Latitude is required and must be a number"
  else if x.ltc (-90) || x.gtc 90 then "Latitude must be between -90 and 90"
  else ""

/-- The longitude check of `validateForm`, mirroring the latitude check with
the [-180, 180] range. -/
def longitudeCheck (x : JSNumber) : String :=
  if x = JSNumber.num 0 || x.isNaN then "Longitude is required and must be a number"
  else if x.ltc (-180) || x.gtc 180 then "Longitude must be between -180 and 180"
  else ""

/-- The power-output check of `validateForm`:
`powerOutput <= 0 || isNaN(powerOutput)`. -/
def powerOutputCheck (x : JSNumber) : String :=
  if x.lec 0 || x.isNaN then "Power output is required and must be a positive number"
  else ""

/-- The connector-type check of `validateForm`:
`if (!stationData.value.connectorType.trim())`. -/
def connectorTypeCheck (s : String) : String :=
  if jsTrim s = "" then "Connector type is required" else ""

/-- `validateForm` from StationFormPage.vue. The source resets `formErrors`,
runs the five field checks in order — each failing check writes its message
into `formErrors` and sets `isValid = false` — and returns `isValid`. The
checks touch disjoint fields, so the run is the record of the five check
results, and `isValid` is true exactly when no check recorded a message.
Returns `(isValid, formErrors)`. -/
def validateForm (d : StationInput) : Bool × FormErrors :=
  let errs : FormErrors :=
    { name := nameCheck d.name
      latitude := latitudeCheck d.location.latitude
      longitude := longitudeCheck d.location.longitude
      powerOutput := powerOutputCheck d.powerOutput
      connectorType := connectorTypeCheck d.connectorType
      form := "" }
  (decide (errs.name = "") && decide (errs.latitude = "") &&
    decide (errs.longitude = "") && decide (errs.powerOutput = "") &&
    decide (errs.connectorType = ""), errs)

/-- The validity predicate exactly as the specification words it (for
comparison with `validateForm`): trimmed name non-empty, latitude a number in
[-90, 90], longitude a number in [-180, 180], powerOutput a positive number,
trimmed connector type non-empty. -/
def specValidStation (d : StationInput) : Prop :=
  jsTrim d.name ≠ "" ∧
  (∃ q, d.location.latitude = JSNumber.num q ∧ -90 ≤ q ∧ q ≤ 90) ∧
  (∃ q, d.location.longitude = JSNumber.num q ∧ -180 ≤ q ∧ q ≤ 180) ∧
  (∃ q, d.powerOutput = JSNumber.num q ∧ 0 < q) ∧
  jsTrim d.connectorType ≠ ""

/-- A form input that the specification predicate accepts (latitude 0 is a
valid geocoordinate) but that `validateForm` rejects, because the code treats
latitude 0 as "missing". -/
def zeroLatInput : StationInput :=
  { name := "Main St"
    location := { latitude := JSNumber.num 0, longitude := JSNumber.num (-73), address := none }
    status := "active"
    powerOutput := JSNumber.num 50
    connectorType := "CCS" }

/-- A fully valid station form input, used to exercise
`validateForm_characterization` on a concrete value. -/
def goodInput : StationInput :=
  { name := "Main St"
    location := { latitude := JSNumber.num 45, longitude := JSNumber.num (-73), address := none }
    status := "active"
    powerOutput := JSNumber.num 50
    connectorType := "CCS" }

end EVStation

namespace EVStation

/-! ### CORS origin gate (backend/index.js) -/

/-- The fixed CORS allow-list from backend/index.js. -/
def allowedOrigins : List String :=
  ["http://localhost:5173", "https://test-project-frontend-test.vercel.app"]

/-- Outcome of the cors `origin` callback: `callback(null, true)` or
`callback(new Error(...))`. -/
inductive CorsDecision where
  | allowed : CorsDecision
  | rejected : String → CorsDecision
deriving DecidableEq

/-- JavaScript truthiness of a `string | undefined` value: `undefined` and
the empty string are falsy. -/
def jsTruthyStr : Option String → Bool
  | none => false
  | some s => s ≠ ""

/-- The cors `origin` callback from backend/index.js:
`if (!origin || allowedOrigins.includes(origin)) callback(null, true);
else callback(new Error("Not allowed by CORS"))`. The `Origin` header value
is `none` when the header is absent. -/
def corsOriginCheck (origin : Option String) : CorsDecision :=
  if !(jsTruthyStr origin) || allowedOrigins.contains (origin.getD "") then
    CorsDecision.allowed
  else
    CorsDecision.rejected "Not allowed by CORS"

/-! ### Global error handler and startup ordering (backend/index.js) -/

/-- The JSON envelope produced by the global error-handling middleware. -/
structure ErrorEnvelope where
  status : Nat
  message : String
  error : Option String
deriving DecidableEq

/-- The global error handler from backend/index.js:
`res.status(500).json({ message, error: NODE_ENV === "production" ? null :
err.message })`. `nodeEnv` is `process.env.NODE_ENV`; `errMsg` is the caught
message of the caught error. -/
def errorHandler (nodeEnv : Option String) (errMsg : String) : ErrorEnvelope :=
  { status := 500
    message := "An unexpected error occurred"
    error := if nodeEnv = some "production" then none else some errMsg }

/-! ### Frontend auth store (frontend/src/stores/auth.ts) -/

/-- The `User` interface of the auth store. -/
structure User where
  id : String
  name : String
  email : String
  role : String
deriving DecidableEq

/-- `localStorage`: a string-keyed map of strings, as an association list. -/
abbrev Storage := List (String × String)

/-- `localStorage.getItem(k)`: the stored value, or null. -/
def Storage.getItem (st : Storage) (k : String) : Option String :=
  (List.find? (fun p => p.1 = k) st).map Prod.snd

/-- `localStorage.setItem(k, v)`. -/
def Storage.setItem (st : Storage) (k v : String) : Storage :=
  (k, v) :: List.filter (fun p => ¬ p.1 = k) st

/-- `localStorage.removeItem(k)`. -/
def Storage.removeItem (st : Storage) (k : String) : Storage :=
  List.filter (fun p => ¬ p.1 = k) st

/-- The observable state the auth store acts on: its four refs (`user`,
`token`, `loading`, `error`), `localStorage`, the process-wide default
Authorization header (`axios.defaults.headers.common["Authorization"]`,
`none` when the header is deleted), and the current router path. -/
structure AuthState where
  user : Option User
  token : Option String
  loading : Bool
  error : Option String
  storage : Storage
  authHeader : Option String
  route : String
deriving DecidableEq

/-- The state of the store at creation (all refs null/false), over whatever
`localStorage` and route the page starts with; no header is set yet. -/
def initState (storage : Storage) (route : String) : AuthState :=
  { user := none, token := none, loading := false, error := none,
    storage := storage, authHeader := none, route := route }

/-- `isLoggedIn`: `!!token.value` — true for a non-null, non-empty token. -/
def isLoggedIn (s : AuthState) : Bool :=
  jsTruthyStr s.token

/-- `setAuthHeader` from the auth store: a truthy token sets the shared
default header to `Bearer <token>`, otherwise the header is deleted. -/
def setAuthHeader (newToken : Option String) (s : AuthState) : AuthState :=
  match newToken with
  | some t =>
      if t = "" then { s with authHeader := none }
      else { s with authHeader := some ("Bearer " ++ t) }
  | none => { s with authHeader := none }

/-- `checkAuth` from the auth store: when both a stored token and a stored
user string are present (truthy), it adopts the token, parses the user JSON
— discarding the persisted entry and nulling `user` if parsing throws — and
sets the Authorization header. `parse` models `JSON.parse` specialised to
the stored user string (`none` = the parse throws). -/
def checkAuth (parse : String → Option User) (s : AuthState) : AuthState :=
  match s.storage.getItem "token", s.storage.getItem "user" with
  | some t, some u =>
      if t = "" || u = "" then s
      else
        let s1 := { s with token := some t }
        let s2 :=
          match parse u with
          | some usr => { s1 with user := some usr }
          | none => { s1 with user := none, storage := s1.storage.removeItem "user" }
        setAuthHeader (some t) s2
  | _, _ => s

/-- Outcome of the awaited HTTP POST inside `login`/`register`: a 2xx
response carrying `{token, user}`, an Axios error whose
`err.response?.data?.message` is the optional server message, or a non-Axios
exception. -/
inductive ServerResponse where
  | success : String → User → ServerResponse
  | axiosError : Option String → ServerResponse
  | otherError : ServerResponse
deriving DecidableEq

/-- JavaScript `a || b` on an optional string: the string when present and
non-empty, otherwise the fallback. -/
def jsOrElse (a : Option String) (b : String) : String :=
  match a with
  | some m => if m = "" then b else m
  | none => b

/-- `login` from the auth store, as a function of the HTTP outcome: sets
`loading`, clears `error`; on success stores and persists `{token, user}`
(the user via `stringify`, modelling `JSON.stringify`), sets the header,
redirects to /dashboard and returns true; on an Axios error sets `error` to
the server message or the login fallback; on any other exception sets the
generic message; both failure paths return false, and `loading` is always
reset. -/
def login (stringify : User → String) (s : AuthState) (resp : ServerResponse) :
    AuthState × Bool :=
  let s0 := { s with loading := true, error := none }
  match resp with
  | .success t u =>
      let s1 := { s0 with token := some t, user := some u }
      let s2 := { s1 with storage := (s1.storage.setItem "token" t).setItem "user" (stringify u) }
      let s3 := setAuthHeader (some t) s2
      let s4 := { s3 with route := "/dashboard" }
      ({ s4 with loading := false }, true)
  | .axiosError msg =>
      ({ s0 with error := some (jsOrElse msg "Login failed. Please check your credentials."),
                 loading := false }, false)
  | .otherError =>
      ({ s0 with error := some "An unexpected error occurred during login.",
                 loading := false }, false)

/-- `register` from the auth store: identical to `login` except for the
endpoint and the fallback messages. -/
def register (stringify : User → String) (s : AuthState) (resp : ServerResponse) :
    AuthState × Bool :=
  let s0 := { s with loading := true, error := none }
  match resp with
  | .success t u =>
      let s1 := { s0 with token := some t, user := some u }
      let s2 := { s1 with storage := (s1.storage.setItem "token" t).setItem "user" (stringify u) }
      let s3 := setAuthHeader (some t) s2
      let s4 := { s3 with route := "/dashboard" }
      ({ s4 with loading := false }, true)
  | .axiosError msg =>
      ({ s0 with error := some (jsOrElse msg "Registration failed. Please try again."),
                 loading := false }, false)
  | .otherError =>
      ({ s0 with error := some "An unexpected error occurred during registration.",
                 loading := false }, false)

/-- `logout` from the auth store: clears `token` and `user`, removes both
persisted entries, deletes the Authorization header, and redirects to
/login. -/
def logout (s : AuthState) : AuthState :=
  let s1 := { s with token := none, user := none }
  let s2 := { s1 with storage := (s1.storage.removeItem "token").removeItem "user" }
  let s3 := setAuthHeader none s2
  { s3 with route := "/login" }

/-- The agreement between the store token and the shared default header as
the specification claims it: `Bearer <token>` whenever the token is
non-null, no header whenever it is null. -/
def headerMatchesTokenClaimed (s : AuthState) : Bool :=
  match s.token with
  | none => s.authHeader = none
  | some t => s.authHeader = some ("Bearer " ++ t)

/-- The agreement the code actually maintains: `Bearer <token>` for a
non-null, non-empty token; no header when the token is null or empty (an
empty token is falsy, so `setAuthHeader` deletes the header). -/
def headerMatchesToken (s : AuthState) : Bool :=
  match s.token with
  | none => s.authHeader = none
  | some t =>
      if t = "" then s.authHeader = none
      else s.authHeader = some ("Bearer " ++ t)

/-- A concrete user record, for instantiating the store actions. -/
def aUser : User :=
  { id := "u1", name := "Ada", email := "ada@example.com", role := "user" }

/-- Observable outcome of server startup. -/
inductive StartupOutcome where
  | listening : Option String → StartupOutcome
  | exited : Nat → StartupOutcome
deriving DecidableEq

/-- The startup sequence from backend/index.js: `connectDB().then(() =>
app.listen(PORT, ...)).catch(error => process.exit(1))`. `app.listen` runs
only in the fulfilled continuation; a rejection exits with code 1. -/
def startServer (connectResult : Except String Unit) (port : Option String) :
    StartupOutcome :=
  match connectResult with
  | .ok _ => StartupOutcome.listening port
  | .error _ => StartupOutcome.exited 1

/-! ### Station map component (StationMap.vue) -/

/-- The geocoordinate of a station as held in station records (stores/stations). -/
structure GeoPoint where
  latitude : ℚ
  longitude : ℚ
  address : Option String
deriving DecidableEq

/-- A `Station` record as consumed by the map component. -/
structure Station where
  name : String
  location : GeoPoint
  status : String
  powerOutput : ℚ
  connectorType : String
deriving DecidableEq

/-- An option of the status table: a status value with its display label and
Tailwind color class. -/
structure StatusOption where
  value : String
  label : String
  color : String
deriving DecidableEq

/-- Modelled from the spec: the `STATION_STATUS` table imported from the
frontend config module, which is not among the provided sources. The spec
fixes the status enum as a small set such as active / inactive / maintenance,
each option carrying the color class the marker color is derived from. -/
def STATION_STATUS : List StatusOption :=
  [{ value := "active", label := "Active", color := "bg-secondary-500" },
   { value := "inactive", label := "Inactive", color := "bg-neutral-500" },
   { value := "maintenance", label := "Maintenance", color := "bg-danger-500" }]

/-- JavaScript `s.includes(sub)` for a non-empty `sub`. -/
def strIncludes (s sub : String) : Bool :=
  (s.splitOn sub).length > 1

/-- The marker-color computation of `updateMarkers`: look the status up in
`STATION_STATUS`, strip the `bg-` prefix (defaulting to `neutral-500`), and
map primary/secondary/danger classes to fixed hex colors with a neutral
default. -/
def markerColorFor (status : String) : String :=
  let statusColorClass :=
    jsOrElse ((List.find? (fun o => o.value = status) STATION_STATUS).map
      (fun o => o.color.replace "bg-" "")) "neutral-500"
  if strIncludes statusColorClass "primary" then "#0066cc"
  else if strIncludes statusColorClass "secondary" then "#00cc66"
  else if strIncludes statusColorClass "danger" then "#cc3300"
  else "#6c757d"

/-- A Leaflet marker as created by `updateMarkers`: its position, its icon
color, and its accessibility title. -/
structure Marker where
  latitude : ℚ
  longitude : ℚ
  color : String
  title : String
deriving DecidableEq

/-- The observable state of the map component: the markers currently on the
map (the `markers` ref) and the bounds the viewport was last fitted to
(`none` until a `fitBounds` call). -/
structure MapState where
  markers : List Marker
  fittedBounds : Option (List (ℚ × ℚ))
deriving DecidableEq

/-- `updateMarkers` from StationMap.vue: removes every existing marker and
empties the `markers` array; returns early when the station list is empty;
otherwise creates one marker per station at the coordinates of that station with
the status-derived color, and fits the viewport to the bounds collecting all
marker positions. -/
def updateMarkers (stations : List Station) (m : MapState) : MapState :=
  let cleared : MapState := { m with markers := [] }
  if stations.length = 0 then cleared
  else
    let ms := stations.map (fun st =>
      { latitude := st.location.latitude
        longitude := st.location.longitude
        color := markerColorFor st.status
        title := st.name : Marker })
    { markers := ms
      fittedBounds := some (ms.map (fun mk => (mk.latitude, mk.longitude))) }

/-- The empty-state placeholder of the StationMap template:
`v-if="stations.length === 0"`. -/
def showEmptyState (stations : List Station) : Bool :=
  stations.length = 0

/-- A concrete station, for exercising the map component. -/
def aStation : Station :=
  { name := "Main St"
    location := { latitude := 40, longitude := -73, address := none }
    status := "active"
    powerOutput := 50
    connectorType := "CCS" }

/-- A concrete map state holding a stale marker, for exercising
`updateMarkers`. -/
def aMapState : MapState :=
  { markers := [{ latitude := 1, longitude := 2, color := "#6c757d", title := "Old" }]
    fittedBounds := none }

/-! ### Router (frontend/src/router/index.ts) -/

/-- A route record: path, route name, and whether its `meta` carries
`requiresAuth` (false when the flag is absent). -/
structure RouteRecord where
  path : String
  name : String
  requiresAuth : Bool
deriving DecidableEq

/-- The catch-all 404 record. -/
def catchAllRoute : RouteRecord :=
  { path := "/:pathMatch(.*)*", name := "not-found", requiresAuth := false }

/-- The route table from router/index.ts, with the
`meta.requiresAuth` flag of each record. -/
def routes : List RouteRecord :=
  [{ path := "/", name := "home", requiresAuth := false },
   { path := "/login", name := "login", requiresAuth := false },
   { path := "/register", name := "register", requiresAuth := false },
   { path := "/dashboard", name := "dashboard", requiresAuth := true },
   { path := "/stations", name := "stations", requiresAuth := true },
   { path := "/stations/new", name := "station-new", requiresAuth := true },
   { path := "/stations/:id", name := "station-detail", requiresAuth := true },
   { path := "/stations/:id/edit", name := "station-edit", requiresAuth := true },
   { path := "/map", name := "map", requiresAuth := false },
   catchAllRoute]

/-- Resolution of a navigation target to its matched records: the record
whose path is the target (all the claims here concern static paths), the
catch-all otherwise. -/
def matchPath (p : String) : List RouteRecord :=
  match List.find? (fun r => r.path = p) routes with
  | some r => [r]
  | none => [catchAllRoute]

/-- Outcome of the `beforeEach` guard: `next()` or `next("/login")`. -/
inductive NavDecision where
  | proceed : NavDecision
  | redirect : String → NavDecision
deriving DecidableEq

/-- The `router.beforeEach` guard: if the meta of any matched record has
`requiresAuth` and the auth store says the user is not logged in, redirect to
/login; otherwise let the navigation proceed. -/
def beforeEach (toMatched : List RouteRecord) (auth : AuthState) : NavDecision :=
  if toMatched.any (fun r => r.requiresAuth) && !(isLoggedIn auth) then
    NavDecision.redirect "/login"
  else
    NavDecision.proceed

end EVStation

namespace EVStation

/-- The name check passes exactly when the trimmed name is non-empty. -/
theorem nameCheck_eq_empty (s : String) : nameCheck s = "" ↔ jsTrim s ≠ "" := by
  unfold nameCheck
  split_ifs with h <;> simp_all

/-- The latitude check passes exactly when the latitude is a nonzero number
in [-90, 90]. -/
theorem latitudeCheck_eq_empty (x : JSNumber) :
    latitudeCheck x = "" ↔
      ∃ q, x = JSNumber.num q ∧ q ≠ 0 ∧ -90 ≤ q ∧ q ≤ 90 := by
  cases x with
  | nan => simp only [latitudeCheck, JSNumber.isNaN, Bool.or_true, if_true]
           constructor
           · intro h; exact absurd h (by decide)
           · rintro ⟨q, h, -⟩; cases h
  | num q =>
    simp only [latitudeCheck, JSNumber.isNaN, JSNumber.ltc, JSNumber.gtc, Bool.or_false,
      JSNumber.num.injEq, decide_eq_true_eq, Bool.or_eq_true]
    split_ifs with h1 h2
    · constructor
      · intro h; exact absurd h (by decide)
      · rintro ⟨q', hq, hq0, -⟩; exact absurd (hq ▸ h1) hq0
    · constructor
      · intro h; exact absurd h (by decide)
      · rintro ⟨q', hq, -, hlo, hhi⟩
        cases hq
        rcases h2 with h2 | h2 <;> linarith
    · push_neg at h2
      exact ⟨fun _ => ⟨q, rfl, h1, h2.1, h2.2⟩, fun _ => rfl⟩

/-- The longitude check passes exactly when the longitude is a nonzero number
in [-180, 180]. -/
theorem longitudeCheck_eq_empty (x : JSNumber) :
    longitudeCheck x = "" ↔
      ∃ q, x = JSNumber.num q ∧ q ≠ 0 ∧ -180 ≤ q ∧ q ≤ 180 := by
  cases x with
  | nan => simp only [longitudeCheck, JSNumber.isNaN, Bool.or_true, if_true]
           constructor
           · intro h; exact absurd h (by decide)
           · rintro ⟨q, h, -⟩; cases h
  | num q =>
    simp only [longitudeCheck, JSNumber.isNaN, JSNumber.ltc, JSNumber.gtc, Bool.or_false,
      JSNumber.num.injEq, decide_eq_true_eq, Bool.or_eq_true]
    split_ifs with h1 h2
    · constructor
      · intro h; exact absurd h (by decide)
      · rintro ⟨q', hq, hq0, -⟩; exact absurd (hq ▸ h1) hq0
    · constructor
      · intro h; exact absurd h (by decide)
      · rintro ⟨q', hq, -, hlo, hhi⟩
        cases hq
        rcases h2 with h2 | h2 <;> linarith
    · push_neg at h2
      exact ⟨fun _ => ⟨q, rfl, h1, h2.1, h2.2⟩, fun _ => rfl⟩

/-- The power-output check passes exactly when the power output is a positive
number. -/
theorem powerOutputCheck_eq_empty (x : JSNumber) :
    powerOutputCheck x = "" ↔ ∃ q, x = JSNumber.num q ∧ 0 < q := by
  cases x with
  | nan => simp only [powerOutputCheck, JSNumber.isNaN, JSNumber.lec, Bool.or_true, if_true]
           constructor
           · intro h; exact absurd h (by decide)
           · rintro ⟨q, h, -⟩; cases h
  | num q =>
    simp only [powerOutputCheck, JSNumber.isNaN, JSNumber.lec, Bool.or_false,
      decide_eq_true_eq]
    split_ifs with h1
    · constructor
      · intro h; exact absurd h (by decide)
      · rintro ⟨q', hq, hq0⟩; cases hq; linarith
    · push_neg at h1
      exact ⟨fun _ => ⟨q, rfl, h1⟩, fun _ => rfl⟩

/-- The connector-type check passes exactly when the trimmed connector type is
non-empty. -/
theorem connectorTypeCheck_eq_empty (s : String) :
    connectorTypeCheck s = "" ↔ jsTrim s ≠ "" := by
  unfold connectorTypeCheck
  split_ifs with h <;> simp_all

/-- Claim C1 (counterexample): the input `zeroLatInput` satisfies the validity
condition of the claim (its latitude 0 lies in [-90, 90], every other field is
valid), yet `validateForm` returns false and records a latitude error, so
"returns true if and only if ..." fails as stated. -/
theorem validateForm_rejects_zero_latitude :
    specValidStation zeroLatInput ∧
    (validateForm zeroLatInput).1 = false ∧
    (validateForm zeroLatInput).2.latitude = "Latitude is required and must be a number" := by
  refine ⟨⟨by decide, ⟨0, rfl, by norm_num, by norm_num⟩,
    ⟨-73, rfl, by norm_num, by norm_num⟩, ⟨50, rfl, by norm_num⟩, by decide⟩, by decide, by decide⟩

/-- Claim C1 (amended): `validateForm` returns true iff the trimmed name is
non-empty, the latitude is a nonzero number in [-90, 90], the longitude is a
nonzero number in [-180, 180], the powerOutput is a positive number, and the
trimmed connectorType is non-empty (zero latitude/longitude are treated as
missing and rejected); and it records an error message for a field exactly
when that field is offending. -/
theorem validateForm_characterization (d : StationInput) :
    ((validateForm d).1 = true ↔
      (jsTrim d.name ≠ "" ∧
       (∃ q, d.location.latitude = JSNumber.num q ∧ q ≠ 0 ∧ -90 ≤ q ∧ q ≤ 90) ∧
       (∃ q, d.location.longitude = JSNumber.num q ∧ q ≠ 0 ∧ -180 ≤ q ∧ q ≤ 180) ∧
       (∃ q, d.powerOutput = JSNumber.num q ∧ 0 < q) ∧
       jsTrim d.connectorType ≠ "")) ∧
    ((validateForm d).2.name ≠ "" ↔ jsTrim d.name = "") ∧
    ((validateForm d).2.latitude ≠ "" ↔
      ¬ (∃ q, d.location.latitude = JSNumber.num q ∧ q ≠ 0 ∧ -90 ≤ q ∧ q ≤ 90)) ∧
    ((validateForm d).2.longitude ≠ "" ↔
      ¬ (∃ q, d.location.longitude = JSNumber.num q ∧ q ≠ 0 ∧ -180 ≤ q ∧ q ≤ 180)) ∧
    ((validateForm d).2.powerOutput ≠ "" ↔
      ¬ (∃ q, d.powerOutput = JSNumber.num q ∧ 0 < q)) ∧
    ((validateForm d).2.connectorType ≠ "" ↔ jsTrim d.connectorType = "") := by
  refine ⟨?_, ?_, ?_, ?_, ?_, ?_⟩
  · simp only [validateForm, Bool.and_eq_true, decide_eq_true_eq]
    rw [nameCheck_eq_empty, latitudeCheck_eq_empty, longitudeCheck_eq_empty,
      powerOutputCheck_eq_empty, connectorTypeCheck_eq_empty]
    tauto
  · simp only [validateForm]
    rw [not_iff_comm, Iff.comm]
    exact nameCheck_eq_empty _
  · simp only [validateForm]
    rw [← latitudeCheck_eq_empty]
  · simp only [validateForm]
    rw [← longitudeCheck_eq_empty]
  · simp only [validateForm]
    rw [← powerOutputCheck_eq_empty]
  · simp only [validateForm]
    rw [not_iff_comm, Iff.comm]
    exact connectorTypeCheck_eq_empty _

/-- Concrete instance of `validateForm_characterization`: the valid input
`goodInput` is accepted. -/
theorem validateForm_characterization_witness : (validateForm goodInput).1 = true :=
  (validateForm_characterization goodInput).1.mpr
    ⟨by decide,
     ⟨45, rfl, by norm_num, by norm_num, by norm_num⟩,
     ⟨-73, rfl, by norm_num, by norm_num, by norm_num⟩,
     ⟨50, rfl, by norm_num⟩,
     by decide⟩

/-- Claim C2 (counterexample): a request whose Origin header is present but
empty is allowed by the gate (`!origin` is true for the empty string in
JavaScript), although the empty string is not in the allow-list and the
header is not absent — so "allows iff absent or in the allow-list" fails as
stated. -/
theorem corsOriginCheck_allows_empty_origin :
    corsOriginCheck (some "") = CorsDecision.allowed ∧
    allowedOrigins.contains "" = false := by
  constructor <;> rfl

/-- Claim C2 (amended): the gate allows a request iff the Origin header is
absent, or is the empty string (a falsy origin), or its value is exactly one
of the allow-list strings; every other origin is rejected with the error
"Not allowed by CORS". In particular "http://evil.example" is rejected and
"http://localhost:5173" is accepted. -/
theorem corsOriginCheck_characterization (origin : Option String) :
    (corsOriginCheck origin = CorsDecision.allowed ↔
      (origin = none ∨ origin = some "" ∨
        ∃ o, origin = some o ∧ o ∈ allowedOrigins)) ∧
    (corsOriginCheck origin = CorsDecision.allowed ∨
      corsOriginCheck origin = CorsDecision.rejected "Not allowed by CORS") ∧
    corsOriginCheck (some "http://evil.example") =
      CorsDecision.rejected "Not allowed by CORS" ∧
    corsOriginCheck (some "http://localhost:5173") = CorsDecision.allowed := by
  refine ⟨?_, ?_, by decide, by decide⟩
  · cases origin with
    | none => simp [corsOriginCheck, jsTruthyStr]
    | some o =>
      have hcond :
          ((!jsTruthyStr (some o)) || allowedOrigins.contains ((some o).getD "")) = true
            ↔ (o = "" ∨ o ∈ allowedOrigins) := by
        simp [jsTruthyStr, List.elem_iff]
      simp only [corsOriginCheck]
      split_ifs with h
      · constructor
        · intro _
          rcases hcond.mp h with h1 | h1
          · exact Or.inr (Or.inl (by rw [h1]))
          · exact Or.inr (Or.inr ⟨o, rfl, h1⟩)
        · intro _; rfl
      · constructor
        · intro hc; exact hc.elim
        · rintro (hc | hc | ⟨o', ho', hmem⟩)
          · exact hc.elim
          · exact absurd (hcond.mpr (Or.inl (Option.some.inj hc))) h
          · refine absurd (hcond.mpr (Or.inr ?_)) h
            rw [Option.some.inj ho']
            exact hmem
  · unfold corsOriginCheck
    split_ifs <;> simp

/-- Concrete instance of `corsOriginCheck_characterization`: a request with
no Origin header is allowed. -/
theorem corsOriginCheck_characterization_witness :
    corsOriginCheck none = CorsDecision.allowed :=
  (corsOriginCheck_characterization none).1.mpr (Or.inl rfl)

/-- Claim C6: every error reaching the global handler yields status 500, the
generic message, and an `error` field that carries the underlying message
unless NODE_ENV is "production", in which case it is null. -/
theorem errorHandler_spec (nodeEnv : Option String) (errMsg : String) :
    (errorHandler nodeEnv errMsg).status = 500 ∧
    (errorHandler nodeEnv errMsg).message = "An unexpected error occurred" ∧
    (errorHandler nodeEnv errMsg).error =
      (if nodeEnv = some "production" then none else some errMsg) :=
  ⟨rfl, rfl, rfl⟩

/-- Concrete instance of `errorHandler_spec`: in production the detail is
suppressed, otherwise it is echoed. -/
theorem errorHandler_spec_witness :
    (errorHandler (some "production") "db down").error = none ∧
    (errorHandler (some "development") "db down").error = some "db down" :=
  ⟨by simpa using (errorHandler_spec (some "production") "db down").2.2,
   by simpa using (errorHandler_spec (some "development") "db down").2.2⟩

/-- Claim C8: the listener binds exactly when `connectDB()` fulfils; a
rejected connection exits with code 1 and never reaches `app.listen`. -/
theorem startServer_spec (r : Except String Unit) (p : Option String)
    (e : String) (q : Option String) :
    (startServer r p = StartupOutcome.listening p ↔ r = Except.ok ()) ∧
    startServer (Except.error e) p = StartupOutcome.exited 1 ∧
    startServer (Except.error e) p ≠ StartupOutcome.listening q := by
  refine ⟨?_, rfl, by simp [startServer]⟩
  cases r with
  | ok u => cases u; simp [startServer]
  | error s => simp [startServer]

/-- Concrete instance of `startServer_spec`: a successful connection listens
on the configured port, a failed one exits with code 1. -/
theorem startServer_spec_witness :
    startServer (Except.ok ()) (some "3002") = StartupOutcome.listening (some "3002") ∧
    startServer (Except.error "connect failed") (some "3002") = StartupOutcome.exited 1 :=
  ⟨(startServer_spec (Except.ok ()) (some "3002") "connect failed" none).1.mpr rfl,
   (startServer_spec (Except.ok ()) (some "3002") "connect failed" none).2.1⟩

/-- Removing a key deletes it: `getItem` after `removeItem` of the same key
is null. -/
theorem Storage.getItem_removeItem_self (st : Storage) (k : String) :
    (st.removeItem k).getItem k = none := by
  induction st with
  | nil => rfl
  | cons p rest ih =>
    by_cases h : p.1 = k <;>
      simp_all [Storage.removeItem, Storage.getItem, List.filter_cons]

/-- Removing one key leaves every other key untouched. -/
theorem Storage.getItem_removeItem_ne (st : Storage) (k k' : String)
    (h : ¬ k' = k) :
    (st.removeItem k).getItem k' = st.getItem k' := by
  induction st with
  | nil => rfl
  | cons p rest ih =>
    by_cases h1 : p.1 = k
    · have h2 : ¬ p.1 = k' := fun hc => h (hc ▸ h1)
      simp_all [Storage.removeItem, Storage.getItem, List.filter_cons]
    · by_cases h2 : p.1 = k' <;>
        simp_all [Storage.removeItem, Storage.getItem, List.filter_cons]

/-- Setting a key makes `getItem` of that key return the value. -/
theorem Storage.getItem_setItem_self (st : Storage) (k v : String) :
    (st.setItem k v).getItem k = some v := by
  simp [Storage.setItem, Storage.getItem]

/-- Setting one key leaves every other key untouched. -/
theorem Storage.getItem_setItem_ne (st : Storage) (k k' v : String)
    (h : ¬ k' = k) :
    (st.setItem k v).getItem k' = st.getItem k' := by
  have h2 := Storage.getItem_removeItem_ne st k k' h
  unfold Storage.setItem
  unfold Storage.getItem Storage.removeItem at *
  rw [List.find?_cons_of_neg]
  · exact h2
  · simpa using fun hc => h hc.symm

/-- Claim C3: `checkAuth` is a total function of the store state (the parse
failure is caught, never propagated), and whenever a stored token and stored
user string are present but the user string fails to parse, the persisted
"user" entry is removed and the user of the store is null. -/
theorem checkAuth_discards_malformed_user
    (parse : String → Option User) (s : AuthState) (t u : String)
    (ht : s.storage.getItem "token" = some t) (ht0 : t ≠ "")
    (hu : s.storage.getItem "user" = some u) (hu0 : u ≠ "")
    (hp : parse u = none) :
    (checkAuth parse s).storage.getItem "user" = none ∧
    (checkAuth parse s).user = none := by
  unfold checkAuth
  rw [ht, hu]
  simp [ht0, hu0, hp, setAuthHeader, Storage.getItem_removeItem_self]

/-- Concrete instance of `checkAuth_discards_malformed_user`: a storage with
a token and a malformed user string. -/
theorem checkAuth_discards_malformed_user_witness :
    (checkAuth (fun _ => none)
      (initState [("token", "abc"), ("user", "notjson")] "/")).storage.getItem "user" = none ∧
    (checkAuth (fun _ => none)
      (initState [("token", "abc"), ("user", "notjson")] "/")).user = none :=
  checkAuth_discards_malformed_user (fun _ => none) _ "abc" "notjson"
    (by decide) (by decide) (by decide) (by decide) rfl

/-- Claim C10: with a stored token and an unparseable stored user string,
`checkAuth` still accepts the session — the token is adopted, the header is
set to `Bearer <token>`, `isLoggedIn()` is true — while the user is null. -/
theorem checkAuth_keeps_session_with_bad_user
    (parse : String → Option User) (s : AuthState) (t u : String)
    (ht : s.storage.getItem "token" = some t) (ht0 : t ≠ "")
    (hu : s.storage.getItem "user" = some u) (hu0 : u ≠ "")
    (hp : parse u = none) :
    (checkAuth parse s).token = some t ∧
    (checkAuth parse s).authHeader = some ("Bearer " ++ t) ∧
    (checkAuth parse s).user = none ∧
    isLoggedIn (checkAuth parse s) = true := by
  unfold checkAuth
  rw [ht, hu]
  simp [ht0, hu0, hp, setAuthHeader, isLoggedIn, jsTruthyStr]

/-- Concrete instance of `checkAuth_keeps_session_with_bad_user`. -/
theorem checkAuth_keeps_session_with_bad_user_witness :
    (checkAuth (fun _ => none)
      (initState [("token", "tok123"), ("user", "oops")] "/")).token = some "tok123" ∧
    (checkAuth (fun _ => none)
      (initState [("token", "tok123"), ("user", "oops")] "/")).authHeader =
        some ("Bearer " ++ "tok123") ∧
    (checkAuth (fun _ => none)
      (initState [("token", "tok123"), ("user", "oops")] "/")).user = none ∧
    isLoggedIn (checkAuth (fun _ => none)
      (initState [("token", "tok123"), ("user", "oops")] "/")) = true :=
  checkAuth_keeps_session_with_bad_user (fun _ => none) _ "tok123" "oops"
    (by decide) (by decide) (by decide) (by decide) rfl

/-- Claim C4: `login` and `register` are total functions returning a boolean
(every exception path of the source is caught). On a success response they
store and persist `{token, user}`, set the Authorization header, redirect to
/dashboard and return true; on an Axios error they return false with `error`
set to the server message (or the fallback of the endpoint when no message
is present); on a non-Axios exception they return false with the generic
message. -/
theorem login_register_spec (stringify : User → String) (s : AuthState)
    (resp : ServerResponse) :
    (∀ t usr, resp = ServerResponse.success t usr →
      (login stringify s resp).2 = true ∧
      (login stringify s resp).1.token = some t ∧
      (login stringify s resp).1.user = some usr ∧
      (login stringify s resp).1.storage.getItem "token" = some t ∧
      (login stringify s resp).1.storage.getItem "user" = some (stringify usr) ∧
      (t ≠ "" → (login stringify s resp).1.authHeader = some ("Bearer " ++ t)) ∧
      (login stringify s resp).1.route = "/dashboard") ∧
    (∀ msg, resp = ServerResponse.axiosError msg →
      (login stringify s resp).2 = false ∧
      (login stringify s resp).1.error =
        some (jsOrElse msg "Login failed. Please check your credentials.")) ∧
    (resp = ServerResponse.otherError →
      (login stringify s resp).2 = false ∧
      (login stringify s resp).1.error =
        some "An unexpected error occurred during login.") ∧
    (∀ t usr, resp = ServerResponse.success t usr →
      (register stringify s resp).2 = true ∧
      (register stringify s resp).1.token = some t ∧
      (register stringify s resp).1.user = some usr ∧
      (register stringify s resp).1.storage.getItem "token" = some t ∧
      (register stringify s resp).1.storage.getItem "user" = some (stringify usr) ∧
      (t ≠ "" → (register stringify s resp).1.authHeader = some ("Bearer " ++ t)) ∧
      (register stringify s resp).1.route = "/dashboard") ∧
    (∀ msg, resp = ServerResponse.axiosError msg →
      (register stringify s resp).2 = false ∧
      (register stringify s resp).1.error =
        some (jsOrElse msg "Registration failed. Please try again.")) ∧
    (resp = ServerResponse.otherError →
      (register stringify s resp).2 = false ∧
      (register stringify s resp).1.error =
        some "An unexpected error occurred during registration.") := by
  refine ⟨?_, ?_, ?_, ?_, ?_, ?_⟩
  · rintro t usr rfl
    unfold login
    by_cases ht : t = "" <;>
      simp [setAuthHeader, ht, Storage.getItem_setItem_self, Storage.getItem_setItem_ne]
  · rintro msg rfl
    exact ⟨rfl, rfl⟩
  · rintro rfl
    exact ⟨rfl, rfl⟩
  · rintro t usr rfl
    unfold register
    by_cases ht : t = "" <;>
      simp [setAuthHeader, ht, Storage.getItem_setItem_self, Storage.getItem_setItem_ne]
  · rintro msg rfl
    exact ⟨rfl, rfl⟩
  · rintro rfl
    exact ⟨rfl, rfl⟩

/-- Concrete instance of `login_register_spec`: a successful login with
token "tok" returns true and sets the Bearer header; a failed register with
no server message returns false with the register fallback message. -/
theorem login_register_spec_witness :
    (login (fun _ => "ujson") (initState [] "/") (ServerResponse.success "tok" aUser)).2 = true ∧
    (login (fun _ => "ujson") (initState [] "/")
      (ServerResponse.success "tok" aUser)).1.authHeader = some ("Bearer " ++ "tok") ∧
    (register (fun _ => "ujson") (initState [] "/") (ServerResponse.axiosError none)).2 = false ∧
    (register (fun _ => "ujson") (initState [] "/")
      (ServerResponse.axiosError none)).1.error = some "Registration failed. Please try again." :=
  ⟨((login_register_spec (fun _ => "ujson") (initState [] "/")
      (ServerResponse.success "tok" aUser)).1 "tok" aUser rfl).1,
   ((login_register_spec (fun _ => "ujson") (initState [] "/")
      (ServerResponse.success "tok" aUser)).1 "tok" aUser rfl).2.2.2.2.2.1 (by decide),
   ((login_register_spec (fun _ => "ujson") (initState [] "/")
      (ServerResponse.axiosError none)).2.2.2.2.1 none rfl).1,
   ((login_register_spec (fun _ => "ujson") (initState [] "/")
      (ServerResponse.axiosError none)).2.2.2.2.1 none rfl).2⟩

/-- Claim C5 (counterexample): a login completing with an empty-string token
leaves the store token non-null (`some ""`) while `setAuthHeader` deletes the
header (an empty token is falsy), so "the header equals Bearer token whenever
the token is non-null" fails as stated. -/
theorem login_empty_token_breaks_claimed_header :
    (login (fun _ => "x") (initState [] "/") (ServerResponse.success "" aUser)).1.token = some "" ∧
    (login (fun _ => "x") (initState [] "/") (ServerResponse.success "" aUser)).1.authHeader = none ∧
    headerMatchesTokenClaimed
      (login (fun _ => "x") (initState [] "/") (ServerResponse.success "" aUser)).1 = false := by
  refine ⟨rfl, ?_, ?_⟩ <;> decide

/-- Claim C5 (amended): the agreement the actions maintain is: header
`Bearer <token>` whenever the token is a non-empty string, no header whenever
the token is null or empty. That invariant holds in the initial state and is
preserved by `checkAuth`, `login`, `register` and `logout` (the latter
unconditionally); moreover `logout` clears the token, the user, both
persisted entries, and the header. -/
theorem authHeader_agrees_with_token
    (parse : String → Option User) (stringify : User → String)
    (s : AuthState) (resp : ServerResponse) (storage : Storage) (route : String) :
    headerMatchesToken (initState storage route) = true ∧
    (headerMatchesToken s = true → headerMatchesToken (checkAuth parse s) = true) ∧
    (headerMatchesToken s = true → headerMatchesToken (login stringify s resp).1 = true) ∧
    (headerMatchesToken s = true → headerMatchesToken (register stringify s resp).1 = true) ∧
    headerMatchesToken (logout s) = true ∧
    (logout s).token = none ∧
    (logout s).user = none ∧
    (logout s).storage.getItem "token" = none ∧
    (logout s).storage.getItem "user" = none ∧
    (logout s).authHeader = none := by
  obtain ⟨usr, tok, ld, er, stg, hd, rt⟩ := s
  refine ⟨rfl, ?_, ?_, ?_, ?_, rfl, rfl, ?_, ?_, rfl⟩
  · intro h
    unfold checkAuth
    split
    · split_ifs with hc
      · exact h
      · simp only [Bool.or_eq_true, decide_eq_true_eq, not_or] at hc
        cases hparse : parse _ <;>
          simp [setAuthHeader, headerMatchesToken, hparse, hc.1]
    · exact h
  · intro h
    cases resp with
    | success t u =>
      by_cases ht : t = "" <;>
        simp [login, setAuthHeader, headerMatchesToken, ht]
    | axiosError msg => simpa [login, headerMatchesToken] using h
    | otherError => simpa [login, headerMatchesToken] using h
  · intro h
    cases resp with
    | success t u =>
      by_cases ht : t = "" <;>
        simp [register, setAuthHeader, headerMatchesToken, ht]
    | axiosError msg => simpa [register, headerMatchesToken] using h
    | otherError => simpa [register, headerMatchesToken] using h
  · simp [logout, setAuthHeader, headerMatchesToken]
  · simp only [logout, setAuthHeader]
    exact (Storage.getItem_removeItem_ne _ "user" "token" (by decide)).trans
      (Storage.getItem_removeItem_self _ "token")
  · simp only [logout, setAuthHeader]
    exact Storage.getItem_removeItem_self _ "user"

/-- Concrete instance of `authHeader_agrees_with_token`: the invariant holds
after rehydrating from an empty storage. -/
theorem authHeader_agrees_with_token_witness :
    headerMatchesToken (checkAuth (fun _ => none) (initState [] "/")) = true :=
  (authHeader_agrees_with_token (fun _ => none) (fun _ => "x") (initState [] "/")
    ServerResponse.otherError [] "/").2.1 (by decide)

/-- Claim C7: `updateMarkers` replaces whatever markers were on the map with
exactly one marker per station, placed at the coordinates of that station and
colored from its status; the empty-state placeholder shows exactly for the
empty list, and for a non-empty list the viewport is fitted to the bounds of
all the markers. -/
theorem updateMarkers_spec (stations : List Station) (m : MapState) :
    (updateMarkers stations m).markers =
      stations.map (fun st =>
        { latitude := st.location.latitude
          longitude := st.location.longitude
          color := markerColorFor st.status
          title := st.name : Marker }) ∧
    (showEmptyState stations = true ↔ stations = []) ∧
    (stations ≠ [] →
      (updateMarkers stations m).fittedBounds =
        some ((updateMarkers stations m).markers.map
          (fun mk => (mk.latitude, mk.longitude)))) := by
  unfold updateMarkers showEmptyState
  by_cases h : stations = []
  · subst h; simp
  · have hl : ¬ stations.length = 0 := by simpa [List.length_eq_zero] using h
    simp [hl, h, List.length_eq_zero]

/-- Concrete instance of `updateMarkers_spec`: one station yields one marker
and the viewport is fitted to it, discarding the stale marker. -/
theorem updateMarkers_spec_witness :
    (updateMarkers [aStation] aMapState).fittedBounds =
      some ((updateMarkers [aStation] aMapState).markers.map
        (fun mk => (mk.latitude, mk.longitude))) :=
  (updateMarkers_spec [aStation] aMapState).2.2 (by simp)

/-- Claim C9: the /map route is reachable for every auth store state — its
record carries no `requiresAuth` meta flag, so `beforeEach` lets the
navigation proceed even with no token — whereas any navigation whose matched
records include `requiresAuth` is redirected to /login when the store is not
logged in. -/
theorem map_route_public (auth : AuthState) (recs : List RouteRecord) :
    beforeEach (matchPath "/map") auth = NavDecision.proceed ∧
    matchPath "/map" = [{ path := "/map", name := "map", requiresAuth := false }] ∧
    (List.any recs (fun r => r.requiresAuth) = true → isLoggedIn auth = false →
      beforeEach recs auth = NavDecision.redirect "/login") := by
  have hm : matchPath "/map" = [{ path := "/map", name := "map", requiresAuth := false }] := by
    decide
  refine ⟨?_, hm, ?_⟩
  · rw [hm]
    simp [beforeEach]
  · intro h1 h2
    simp [beforeEach, h1, h2]

/-- Concrete instance of `map_route_public`: with no token, /map proceeds and
/dashboard redirects to /login. -/
theorem map_route_public_witness :
    beforeEach (matchPath "/map") (initState [] "/") = NavDecision.proceed ∧
    beforeEach (matchPath "/dashboard") (initState [] "/") = NavDecision.redirect "/login" :=
  ⟨(map_route_public (initState [] "/") (matchPath "/dashboard")).1,
   (map_route_public (initState [] "/") (matchPath "/dashboard")).2.2 (by decide) (by decide)⟩

end EVStation
